import Mathlib

/-!
Verification of the repository-analysis pipeline (spaceapps_meta).

Shallow embedding of the Python sources:
  io.py       : GITHUB_URL_RE / parse_slug        (identifier normalization)
  loc.py      : has_cloc / count_lines_with_cloc / count_lines_with_wc
  gitmeta.py  : RepoMetrics / analyze_repo / analyze_repo_local
  analysis.py : analyze_from_csv                  (parallel orchestrator)

External effects (subprocess runs, the filesystem, thread scheduling) are
modelled by explicit environment records supplying each command's exit code
and captured output; the Python functions then become pure Lean functions of
the input and the environment.  Python string helpers used by the code
(strip, splitlines, split, isdigit, int(), Path.suffix, str.lower) are
embedded for the ASCII range, which covers every string the code builds
or compares against.
-/

/-- Python str.strip() whitespace test, ASCII range. -/
def pyWs (c : Char) : Bool :=
  c = ' ' || c = '\t' || c = '\n' || c = '\x0d' || c = '\x0b' || c = '\x0c'

/-- Python str.strip(): drop leading and trailing whitespace. -/
def pyStrip (s : String) : String :=
  ⟨((s.data.dropWhile pyWs).reverse.dropWhile pyWs).reverse⟩

/-- Python str.splitlines() worker over the character list.  Recognizes the
newline terminators that can occur in captured command output. -/
def slAux (acc : List Char) : List Char → List (List Char)
  | [] => [acc.reverse]
  | '\x0d' :: '\n' :: cs => acc.reverse :: (if cs = [] then [] else slAux [] cs)
  | '\x0d' :: cs => acc.reverse :: (if cs = [] then [] else slAux [] cs)
  | '\n' :: cs => acc.reverse :: (if cs = [] then [] else slAux [] cs)
  | c :: cs => slAux (c :: acc) cs

/-- Python str.splitlines(). -/
def pySplitlines (s : String) : List String :=
  if s.data = [] then [] else (slAux [] s.data).map (fun l => ⟨l⟩)

/-- Python str.split(sep) for a one-character separator: keeps empty pieces,
and the empty string yields one empty piece. -/
def splitChar (sep : Char) : List Char → List (List Char)
  | [] => [[]]
  | c :: cs =>
    let r := splitChar sep cs
    if c = sep then [] :: r else (c :: r.headD []) :: r.tail

/-- Python str.split(sep) on strings. -/
def pySplitOn (sep : Char) (s : String) : List String :=
  (splitChar sep s.data).map (fun l => ⟨l⟩)

/-- Nonempty all-ASCII-digit test: Python str.isdigit() on the strings the
code feeds it (git produces ASCII output). -/
def pyIsDigit (s : String) : Bool :=
  !s.data.isEmpty && s.data.all (fun c => c.isDigit)

/-- Numeric value of an all-digit string (Python int() on an isdigit string). -/
def natOfDigits (s : String) : Nat :=
  s.data.foldl (fun a c => a * 10 + (c.toNat - '0'.toNat)) 0

/-- Tail of a Python int() literal after its first digit: digits with single
underscores allowed between digits. -/
def digitsTail : List Char → Bool
  | [] => true
  | '_' :: c :: cs => c.isDigit && digitsTail cs
  | c :: cs => c.isDigit && digitsTail cs

/-- Python int() digit-group syntax: nonempty, starts with a digit,
underscores only between digits. -/
def digitsOk : List Char → Bool
  | [] => false
  | c :: cs => c.isDigit && digitsTail cs

/-- Numeric value ignoring grouping underscores. -/
def natOfGrouped (cs : List Char) : Nat :=
  (cs.filter (fun c => c ≠ '_')).foldl (fun a c => a * 10 + (c.toNat - '0'.toNat)) 0

/-- Python int(str) for ASCII tokens without surrounding whitespace: optional
sign, then digits with optional grouping underscores; None on anything else. -/
def pyInt (s : String) : Option Int :=
  match s.data with
  | '+' :: rest => if digitsOk rest then some (natOfGrouped rest : Int) else none
  | '-' :: rest => if digitsOk rest then some (-(natOfGrouped rest : Int)) else none
  | rest => if digitsOk rest then some (natOfGrouped rest : Int) else none

/-- ASCII lower-casing of one character (Python str.lower on ASCII data). -/
def asciiLower (c : Char) : Char :=
  if 'A' ≤ c ∧ c ≤ 'Z' then Char.ofNat (c.toNat + 32) else c

/-- ASCII lower-casing of a string. -/
def asciiLowerStr (s : String) : String := ⟨s.data.map asciiLower⟩

/-- First whitespace-delimited token of out.strip(): out.strip().split()[0]
in the source, used only when out.strip() is nonempty. -/
def headTok (s : String) : String :=
  ⟨(pyStrip s).data.takeWhile (fun c => !pyWs c)⟩

/-- First n characters of a string (Python s[:n]). -/
def strTake (s : String) (n : Nat) : String := ⟨s.data.take n⟩

/-! ## io.py : parse_slug

GITHUB_URL_RE is
  https?://(?:www\.)?github\.com/([^\/]+)/([^\/]+?)(?:\.git)?(?:/|$)
with IGNORECASE, applied with re.match (anchored at the start only) to
repo_url.strip().  The embedding below follows the regex's backtracking
semantics: the literal pieces are matched case-insensitively; group 1 is
greedy but, being a run of non-slash characters followed by a mandatory
slash, is forced to be exactly the first path segment; group 2 is lazy, so
the shortest nonempty non-slash run whose continuation matches
(?:\.git)?(?:/|$) wins. -/

/-- Match a literal pattern case-insensitively as a prefix, returning the
remainder of the input. -/
def dropLitCI : List Char → List Char → Option (List Char)
  | [], s => some s
  | _, [] => none
  | p :: ps, c :: cs => if asciiLower c = asciiLower p then dropLitCI ps cs else none

/-- Does (?:/|$) match here? -/
def slashOrEnd : List Char → Bool
  | [] => true
  | c :: _ => c = '/'

/-- Does (?:\.git)?(?:/|$) match here (with backtracking over the optional
.git)? -/
def tailOk (rest : List Char) : Bool :=
  (match dropLitCI ".git".data rest with
   | some r => slashOrEnd r
   | none => false) || slashOrEnd rest

/-- Lazy group 2: consume the shortest nonempty run of non-slash characters
after which the tail matches; None when no such run exists. -/
def findName (acc : List Char) : List Char → Option (List Char)
  | [] => none
  | c :: cs =>
    if c = '/' then none
    else if tailOk cs then some (c :: acc).reverse
    else findName (c :: acc) cs

/-- GITHUB_URL_RE.match on an already-stripped string, returning the two
captured groups (owner, name). -/
def github_url_match (s : List Char) : Option (List Char × List Char) :=
  match dropLitCI "http".data s with
  | none => none
  | some r1 =>
    let r2 := match dropLitCI "s".data r1 with
      | some x => x
      | none => r1
    match dropLitCI "://".data r2 with
    | none => none
    | some r3 =>
      let r4 := match dropLitCI "www.".data r3 with
        | some x => x
        | none => r3
      match dropLitCI "github.com/".data r4 with
      | none => none
      | some r5 =>
        let owner := r5.takeWhile (fun c => c ≠ '/')
        let rest := r5.dropWhile (fun c => c ≠ '/')
        if owner = [] then none
        else
          match rest with
          | [] => none
          | _ :: afterSlash =>
            match findName [] afterSlash with
            | none => none
            | some name => some (owner, name)

/-- io.py parse_slug: strip the input, match GITHUB_URL_RE, and join the two
groups as owner/name. -/
def parse_slug (repo_url : String) : Option String :=
  match github_url_match (pyStrip repo_url).data with
  | none => none
  | some g => some (⟨g.1⟩ ++ "/" ++ ⟨g.2⟩)

example : parse_slug "https://github.com/foo/bar" = some "foo/bar" := by decide
example : parse_slug "https://github.com/foo/bar.git" = some "foo/bar" := by decide
example : parse_slug "https://github.com/foo/bar/" = some "foo/bar" := by decide
example : parse_slug "https://example.com/foo/bar" = none := by decide
example : parse_slug "  https://WWW.GitHub.COM/Foo/Bar.GIT " = some "Foo/Bar" := by decide
example : parse_slug "https://github.com/foo" = none := by decide
example : parse_slug "https://github.com/foo/bar/tree/main" = some "foo/bar" := by decide

/-! ## Command-execution model

The helpers _run in gitmeta.py and loc.py execute an external command and
return (returncode, stdout, stderr); a timeout is already converted by _run
itself into returncode 1 with empty stdout.  Each such invocation is
modelled by a RunRes supplied by the environment. -/

/-- Result of one external command: exit code plus captured stdout/stderr. -/
structure RunRes where
  rc : Nat
  out : String
  err : String
deriving DecidableEq

/-! ## loc.py : line counting -/

/-- Environment for the line counter: availability and result of the cloc
tool, the tracked-file listing, and the per-file wc -l results.  clocSum
abstracts the json.loads extraction in count_lines_with_cloc: it is
some n exactly when the stdout parses as JSON with an integer SUM.code
field n, and none when parsing raises or the keys are missing. -/
structure LocEnv where
  clocAvail : Bool
  clocRun : RunRes
  clocSum : Option Int
  lsFiles : RunRes
  wcRun : String → RunRes

/-- loc.py has_cloc: shutil.which("cloc") is not None. -/
def has_cloc (env : LocEnv) : Bool := env.clocAvail

/-- loc.py count_lines_with_cloc: run cloc; a non-zero exit means None,
otherwise the parsed SUM.code value (None when parsing fails). -/
def count_lines_with_cloc (env : LocEnv) : Option Int :=
  if env.clocRun.rc ≠ 0 then none else env.clocSum

/-- loc.py bin_ext: the binary-extension denylist (a Python set literal,
membership-tested only, so a list is an adequate model). -/
def binExt : List String :=
  [".png", ".jpg", ".jpeg", ".gif", ".webp", ".svg", ".pdf", ".zip", ".gz",
   ".tar", ".7z", ".exe", ".dll", ".so", ".dylib", ".bin", ".mp4", ".mov",
   ".avi", ".mkv", ".ogg", ".mp3", ".wav", ".flac", ".ico", ".ttf", ".otf"]

/-- Final path component, as pathlib computes it: empty and single-dot
components are dropped. -/
def pathName (rel : String) : String :=
  ((pySplitOn '/' rel).filter (fun c => c ≠ "" && c ≠ ".")).getLastD ""

/-- pathlib Path(rel).suffix: the extension of the final component, i.e.
the part from the last dot on, provided that dot is neither the first nor
the last character of the name. -/
def pySuffix (rel : String) : String :=
  let n := (pathName rel).data
  let rev := n.reverse
  let after := rev.takeWhile (fun c => c ≠ '.')
  if rev.contains '.' ∧ 1 ≤ after.length ∧ after.length + 1 < n.length then
    ⟨'.' :: after.reverse⟩
  else ""

/-- Body of the per-file loop in count_lines_with_wc: skip denylisted
extensions (lower-cased, so the check is case-insensitive), run wc -l, and
on success add the leading integer token; parse failures add nothing. -/
def wcFileStep (env : LocEnv) (total : Int) (rel : String) : Int :=
  if binExt.contains (asciiLowerStr (pySuffix rel)) then total
  else
    let r2 := env.wcRun rel
    if r2.rc = 0 ∧ pyStrip r2.out ≠ "" then
      match pyInt (headTok r2.out) with
      | some n => total + n
      | none => total
    else total

/-- loc.py count_lines_with_wc: split the NUL-separated git ls-files output
(its exit code is not inspected by the source), drop empty entries, and fold
the per-file step over the files starting from 0. -/
def count_lines_with_wc (env : LocEnv) : Int :=
  let files := (pySplitOn '\x00' env.lsFiles.out).filter (fun f => f ≠ "")
  files.foldl (wcFileStep env) 0

/-! ## gitmeta.py : RepoMetrics and the per-repository analysis -/

/-- gitmeta.py RepoMetrics dataclass.  The float fields of the source
(avg_lines_changed_per_commit, size_on_disk_mb) are modelled over ℚ; no
claim depends on binary floating-point rounding. -/
structure RepoMetrics where
  repo_url : String
  repo_slug : String
  contributors_count : Option Nat := none
  commits_count : Option Nat := none
  first_commit_iso : Option String := none
  last_commit_iso : Option String := none
  total_lines : Option Int := none
  avg_lines_changed_per_commit : Option ℚ := none
  default_branch : Option String := none
  size_on_disk_mb : Option ℚ := none
  clone_status : String := "PENDING"
deriving DecidableEq

/-- Fresh record for one analysis: RepoMetrics(repo_url=.., repo_slug=..)
with every other field at its dataclass default. -/
def mkMetrics (repo_url repo_slug : String) : RepoMetrics :=
  { repo_url := repo_url, repo_slug := repo_slug }

/-- Environment for one repository analysis: existence of the local working
copy, the result of each git query, the line-counter environment, the
directory-size computation (a pure filesystem walk, abstracted to its
rounded result), a unique temporary-directory name (remote mode), and an
optional unhandled exception: some (k, e) means an exception with text e
escapes while step k of the query sequence is executing (so the first k
steps completed). -/
structure GitEnv where
  dirExists : Bool
  safeDirRes : RunRes
  branchRes : RunRes
  commitsRes : RunRes
  datesRes : RunRes
  contribRes : RunRes
  numstatRes : RunRes
  loc : LocEnv
  sizeMb : ℚ
  tmpdirName : String
  exc : Option (Nat × String)

/-- One step of the query sequence: a RepoMetrics update driven by the
environment. -/
abbrev Step := RepoMetrics → GitEnv → RepoMetrics

/-- git config --global --add safe.directory: no effect on the record. -/
def stepSafeDir : Step := fun m _ => m

/-- git rev-parse --abbrev-ref HEAD: default_branch = out.strip() if rc == 0
else None (an unconditional assignment of a conditional value). -/
def stepBranch : Step := fun m env =>
  { m with default_branch :=
      if env.branchRes.rc = 0 then some (pyStrip env.branchRes.out) else none }

/-- Parsed commit count: int(out.strip()) if rc == 0 and out.strip().isdigit()
else None. -/
def parseCommits (res : RunRes) : Option Nat :=
  if res.rc = 0 ∧ pyIsDigit (pyStrip res.out) = true then
    some (natOfDigits (pyStrip res.out))
  else none

/-- git rev-list --count HEAD. -/
def stepCommits : Step := fun m env =>
  { m with commits_count := parseCommits env.commitsRes }

/-- git log --reverse --format=%aI: on success, strip each line, drop blank
ones, and take the first and last survivors as the commit date range. -/
def stepDates : Step := fun m env =>
  if env.datesRes.rc = 0 then
    match ((pySplitlines env.datesRes.out).map pyStrip).filter (fun l => l ≠ "") with
    | [] => m
    | x :: xs =>
      { m with first_commit_iso := some x, last_commit_iso := some ((x :: xs).getLastD x) }
  else m

/-- git shortlog -sne: on success the contributor count is the number of
lines whose stripped form is nonempty. -/
def stepContribs : Step := fun m env =>
  if env.contribRes.rc = 0 then
    let cs := (pySplitlines env.contribRes.out).filter (fun l => pyStrip l ≠ "")
    { m with contributors_count := some cs.length }
  else m

/-- Added+deleted total of one numstat line: strip, split on tabs, and when
at least three fields are present add the first two, each counting 0 unless
it is a pure digit string.  The source keeps adds and dels in two
accumulators; their final sum equals this per-line sum folded over lines. -/
def numstatLineVal (line : String) : Nat :=
  let parts := pySplitOn '\t' (pyStrip line)
  if 3 ≤ parts.length then
    (if pyIsDigit (parts.getD 0 "") then natOfDigits (parts.getD 0 "") else 0) +
    (if pyIsDigit (parts.getD 1 "") then natOfDigits (parts.getD 1 "") else 0)
  else 0

/-- total_changes = adds + dels over the whole numstat output. -/
def totalChanges (out : String) : Nat :=
  ((pySplitlines out).map numstatLineVal).foldl (fun a b => a + b) 0

/-- Python round(x, 2): rounding to two decimals, over ℚ (the source rounds
a binary float half-to-even; no claim depends on the tie behavior). -/
def round2 (q : ℚ) : ℚ := (⌊q * 100 + 1/2⌋ : ℚ) / 100

/-- git log --pretty=tformat: --numstat: on success compute total_changes
and, when the commit count is a positive integer (Python: commits_count and
commits_count > 0), set the rounded average lines changed per commit. -/
def stepNumstat : Step := fun m env =>
  if env.numstatRes.rc = 0 then
    match m.commits_count with
    | some n =>
      if 0 < n then
        let avg := round2 ((totalChanges env.numstatRes.out : ℚ) / (n : ℚ))
        { m with avg_lines_changed_per_commit := some avg }
      else m
    | none => m
  else m

/-- The local total_lines variable of analyze_repo / analyze_repo_local:
None, then cloc when available, then — exactly when still None — the wc
fallback, which always yields an integer. -/
def locTotal (loc : LocEnv) : Int :=
  match (if has_cloc loc then count_lines_with_cloc loc else none) with
  | some n => n
  | none => count_lines_with_wc loc

/-- Line counting: metrics.total_lines = int(total_lines), total_lines being
an integer on every path through the two tiers. -/
def stepLoc : Step := fun m env =>
  { m with total_lines := some (locTotal env.loc) }

/-- _dir_size_mb of the working copy (filesystem walk abstracted to its
result). -/
def stepSize : Step := fun m env =>
  { m with size_on_disk_mb := some env.sizeMb }

/-- The query sequence of analyze_repo / analyze_repo_local, in source
order. -/
def localSteps : List Step :=
  [stepSafeDir, stepBranch, stepCommits, stepDates, stepContribs,
   stepNumstat, stepLoc, stepSize]

/-- Run a list of steps left to right. -/
def runSteps (fs : List Step) (m : RepoMetrics) (env : GitEnv) : RepoMetrics :=
  fs.foldl (fun m f => f m env) m

/-- gitmeta.py analyze_repo_local: normalize the identifier (slug or '' into
repo_slug); on failure return the invalid-URL record; when the local
directory is missing return the not-found record; otherwise run the query
sequence inside try/except — an unhandled exception after k completed steps
yields the partial record with status "ERROR: " followed by the exception
text, and full completion sets status "OK". -/
def analyze_repo_local (repo_url : String) (env : GitEnv) : RepoMetrics :=
  match parse_slug repo_url with
  | none => { mkMetrics repo_url "" with clone_status := "ERROR: invalid GitHub URL" }
  | some slug =>
    if env.dirExists = false then
      { mkMetrics repo_url slug with clone_status := "ERROR: not found locally" }
    else
      match env.exc with
      | some ke =>
        { runSteps (localSteps.take ke.1) (mkMetrics repo_url slug) env with
            clone_status := "ERROR: " ++ ke.2 }
      | none =>
        { runSteps localSteps (mkMetrics repo_url slug) env with clone_status := "OK" }

/-- slug.replace('/', '__'): the clone target directory name component. -/
def slugDirName (slug : String) : String :=
  ⟨slug.data.foldr (fun c acc => if c = '/' then '_' :: '_' :: acc else c :: acc) []⟩

/-- The exact git clone argument vector built in analyze_repo. -/
def cloneCmd (repo_url repo_dir : String) : List String :=
  ["git", "-c", "protocol.version=2", "clone", "--no-tags", repo_url, repo_dir]

/-- Clone failure text: (err or out).strip(), Python or being
first-nonempty. -/
def cloneErrMsg (clone : RunRes) : String :=
  pyStrip (if clone.err ≠ "" then clone.err else clone.out)

/-- Outcome of analyze_repo: the returned record or a propagated exception,
whether the temporary directory was created (mkdtemp ran), whether
shutil.rmtree was invoked on it by the finally block, and the clone argument
vector that was executed (empty when control never reached the clone). -/
structure RemoteResult where
  outcome : Except String RepoMetrics
  tmpdirCreated : Bool
  rmtreeCalled : Bool
  cloneCmdRun : List String
deriving Inhabited

/-- gitmeta.py analyze_repo: normalize the identifier; on failure return the
invalid-URL record before any temporary directory exists.  Otherwise mkdtemp
and clone inside try/finally: exception step 0 is an exception escaping the
clone invocation itself; a non-zero clone exit returns the record whose
status carries at most 240 characters of the stripped error text; afterwards
the query sequence runs as in analyze_repo_local, and an exception there
propagates (there is no except clause).  The finally block always runs and
calls rmtree exactly when keep_workdir is false. -/
def analyze_repo (repo_url : String) (env : GitEnv) (clone : RunRes)
    (keep_workdir : Bool) : RemoteResult :=
  match parse_slug repo_url with
  | none =>
    ⟨.ok { mkMetrics repo_url "" with clone_status := "ERROR: invalid GitHub URL" },
     false, false, []⟩
  | some slug =>
    let m0 := mkMetrics repo_url slug
    let repoDir := env.tmpdirName ++ "/" ++ slugDirName slug
    let cmd := cloneCmd repo_url repoDir
    let rm := !keep_workdir
    match env.exc with
    | some ke =>
      if ke.1 = 0 then ⟨.error ke.2, true, rm, cmd⟩
      else if clone.rc ≠ 0 then
        ⟨.ok { m0 with clone_status := "ERROR: " ++ strTake (cloneErrMsg clone) 240 },
         true, rm, cmd⟩
      else ⟨.error ke.2, true, rm, cmd⟩
    | none =>
      if clone.rc ≠ 0 then
        ⟨.ok { m0 with clone_status := "ERROR: " ++ strTake (cloneErrMsg clone) 240 },
         true, rm, cmd⟩
      else
        ⟨.ok { runSteps localSteps m0 env with clone_status := "OK" }, true, rm, cmd⟩

/-! ## analysis.py : the parallel orchestrator

analyze_from_csv submits analyze_repo_local(url, "repos") once per input
url to a bounded thread pool, collects results in completion order, catches
any exception escaping a single future and replaces it by the minimal dict
{'repo_url': url, 'clone_status': 'ERROR: <e>'}, then builds a DataFrame,
adds every declared column that no row carries, and reorders to the declared
column order.  The model: each dispatched task is indexed by its position in
the input list; the environment gives each task either a GitEnv (the
analysis ran to a return) or an escaping fault text; the completion order is
an arbitrary permutation of the indexed input list (a hypothesis of the
theorems); pandas cell semantics make every missing per-row key null, which
fillRow reproduces. -/

/-- One cell of the final table: a value of one of the column types, or
null (NaN/None in pandas). -/
inductive Cell where
  | s (v : String)
  | n (v : Nat)
  | i (v : Int)
  | q (v : ℚ)
  | null
deriving DecidableEq

/-- A result dict as appended to rows: a subset of the declared columns
(none = key absent from the dict). -/
structure RowDict where
  repo_url : Option Cell := none
  repo_slug : Option Cell := none
  contributors_count : Option Cell := none
  commits_count : Option Cell := none
  first_commit_iso : Option Cell := none
  last_commit_iso : Option Cell := none
  total_lines : Option Cell := none
  avg_lines_changed_per_commit : Option Cell := none
  default_branch : Option Cell := none
  size_on_disk_mb : Option Cell := none
  clone_status : Option Cell := none
deriving DecidableEq

/-- A fully-populated output row: every declared column has a cell. -/
structure Row where
  repo_url : Cell
  repo_slug : Cell
  contributors_count : Cell
  commits_count : Cell
  first_commit_iso : Cell
  last_commit_iso : Cell
  total_lines : Cell
  avg_lines_changed_per_commit : Cell
  default_branch : Cell
  size_on_disk_mb : Cell
  clone_status : Cell
deriving DecidableEq

/-- A Python Optional value as a cell: None becomes null. -/
def optCell {α : Type} (f : α → Cell) : Option α → Cell
  | none => Cell.null
  | some a => f a

/-- RepoMetrics.as_dict: dataclasses.asdict — every field of the record
becomes a present key. -/
def RepoMetrics.as_dict (m : RepoMetrics) : RowDict :=
  { repo_url := some (Cell.s m.repo_url),
    repo_slug := some (Cell.s m.repo_slug),
    contributors_count := some (optCell Cell.n m.contributors_count),
    commits_count := some (optCell Cell.n m.commits_count),
    first_commit_iso := some (optCell Cell.s m.first_commit_iso),
    last_commit_iso := some (optCell Cell.s m.last_commit_iso),
    total_lines := some (optCell Cell.i m.total_lines),
    avg_lines_changed_per_commit := some (optCell Cell.q m.avg_lines_changed_per_commit),
    default_branch := some (optCell Cell.s m.default_branch),
    size_on_disk_mb := some (optCell Cell.q m.size_on_disk_mb),
    clone_status := some (Cell.s m.clone_status) }

/-- Outcome of one dispatched future: the analysis returned (with the given
environment), or an unhandled fault with the given text escaped it. -/
inductive TaskOut where
  | done (env : GitEnv)
  | fault (msg : String)

/-- The dict appended to rows for one completed future: the full as_dict on
success, or the minimal error dict built at the except boundary. -/
def taskRow (url : String) : TaskOut → RowDict
  | .done env => (analyze_repo_local url env).as_dict
  | .fault msg =>
    { repo_url := some (Cell.s url),
      clone_status := some (Cell.s ("ERROR: " ++ msg)) }

/-- DataFrame assembly and column reindexing: a key a dict lacks becomes a
null cell in that row (pandas fills NaN for rows missing a column, and the
explicit loop adds all-None columns nobody produced). -/
def fillRow (d : RowDict) : Row :=
  { repo_url := d.repo_url.getD Cell.null,
    repo_slug := d.repo_slug.getD Cell.null,
    contributors_count := d.contributors_count.getD Cell.null,
    commits_count := d.commits_count.getD Cell.null,
    first_commit_iso := d.first_commit_iso.getD Cell.null,
    last_commit_iso := d.last_commit_iso.getD Cell.null,
    total_lines := d.total_lines.getD Cell.null,
    avg_lines_changed_per_commit := d.avg_lines_changed_per_commit.getD Cell.null,
    default_branch := d.default_branch.getD Cell.null,
    size_on_disk_mb := d.size_on_disk_mb.getD Cell.null,
    clone_status := d.clone_status.getD Cell.null }

/-- analysis.py analyze_from_csv, from the identifier list on: outs maps each
dispatch index to its future's outcome, and order is the completion order of
the futures (the theorems quantify over every permutation of the dispatched
tasks). -/
def analyze_from_csv (_urls : List String) (outs : Nat → TaskOut)
    (order : List (Nat × String)) : List Row :=
  order.map (fun p => fillRow (taskRow p.2 (outs p.1)))

/-! ## Concrete environments for witnesses and sanity checks -/

/-- A successful command run with given stdout. -/
def runOk (o : String) : RunRes := ⟨0, o, ""⟩

/-- A failed command run with empty output. -/
def runFail : RunRes := ⟨1, "", ""⟩

/-- A line-counter environment in which cloc is unavailable and every
command fails. -/
def locEnvFail : LocEnv :=
  { clocAvail := false, clocRun := runFail, clocSum := none,
    lsFiles := runFail, wcRun := fun _ => runFail }

/-- A fully successful analysis environment for a small repository. -/
def envW : GitEnv :=
  { dirExists := true,
    safeDirRes := runOk "",
    branchRes := runOk "main\n",
    commitsRes := runOk "3\n",
    datesRes := runOk "2024-01-01T00:00:00+00:00\n2024-02-01T00:00:00+00:00\n",
    contribRes := runOk "     2\tAlice <a@x>\n     1\tBob <b@x>\n",
    numstatRes := runOk "10\t2\tsrc/main.go\n3\t1\tREADME.md\n",
    loc := locEnvFail,
    sizeMb := 1/2,
    tmpdirName := "/tmp/repo_meta_w",
    exc := none }

example : (analyze_repo_local "https://github.com/foo/bar" envW).commits_count = some 3 := by
  decide
example : (analyze_repo_local "https://github.com/foo/bar" envW).contributors_count = some 2 := by
  decide
example :
    (analyze_repo_local "https://github.com/foo/bar" envW).avg_lines_changed_per_commit.isSome
      = true := by
  decide
example : round2 (16/3) = 533/100 := by norm_num [round2]
example : (analyze_repo_local "https://github.com/foo/bar" envW).clone_status = "OK" := by
  decide
example : (analyze_repo_local "https://github.com/foo/bar" envW).total_lines = some 0 := by
  decide
example :
    (analyze_repo_local "https://github.com/foo/bar" envW).first_commit_iso =
      some "2024-01-01T00:00:00+00:00" := by
  decide

/-! ## Step projection lemmas -/

@[simp] theorem avg_stepSafeDir (m : RepoMetrics) (env : GitEnv) :
    (stepSafeDir m env).avg_lines_changed_per_commit = m.avg_lines_changed_per_commit := rfl

@[simp] theorem avg_stepBranch (m : RepoMetrics) (env : GitEnv) :
    (stepBranch m env).avg_lines_changed_per_commit = m.avg_lines_changed_per_commit := rfl

@[simp] theorem avg_stepCommits (m : RepoMetrics) (env : GitEnv) :
    (stepCommits m env).avg_lines_changed_per_commit = m.avg_lines_changed_per_commit := rfl

@[simp] theorem avg_stepDates (m : RepoMetrics) (env : GitEnv) :
    (stepDates m env).avg_lines_changed_per_commit = m.avg_lines_changed_per_commit := by
  unfold stepDates
  split
  · split <;> rfl
  · rfl

@[simp] theorem avg_stepContribs (m : RepoMetrics) (env : GitEnv) :
    (stepContribs m env).avg_lines_changed_per_commit = m.avg_lines_changed_per_commit := by
  unfold stepContribs
  split <;> rfl

@[simp] theorem avg_stepLoc (m : RepoMetrics) (env : GitEnv) :
    (stepLoc m env).avg_lines_changed_per_commit = m.avg_lines_changed_per_commit := rfl

@[simp] theorem avg_stepSize (m : RepoMetrics) (env : GitEnv) :
    (stepSize m env).avg_lines_changed_per_commit = m.avg_lines_changed_per_commit := rfl

@[simp] theorem commits_stepSafeDir (m : RepoMetrics) (env : GitEnv) :
    (stepSafeDir m env).commits_count = m.commits_count := rfl

@[simp] theorem commits_stepBranch (m : RepoMetrics) (env : GitEnv) :
    (stepBranch m env).commits_count = m.commits_count := rfl

@[simp] theorem commits_stepCommits (m : RepoMetrics) (env : GitEnv) :
    (stepCommits m env).commits_count = parseCommits env.commitsRes := rfl

@[simp] theorem commits_stepDates (m : RepoMetrics) (env : GitEnv) :
    (stepDates m env).commits_count = m.commits_count := by
  unfold stepDates
  split
  · split <;> rfl
  · rfl

@[simp] theorem commits_stepContribs (m : RepoMetrics) (env : GitEnv) :
    (stepContribs m env).commits_count = m.commits_count := by
  unfold stepContribs
  split <;> rfl

@[simp] theorem commits_stepNumstat (m : RepoMetrics) (env : GitEnv) :
    (stepNumstat m env).commits_count = m.commits_count := by
  unfold stepNumstat
  split
  · split
    · split <;> rfl
    · rfl
  · rfl

@[simp] theorem commits_stepLoc (m : RepoMetrics) (env : GitEnv) :
    (stepLoc m env).commits_count = m.commits_count := rfl

@[simp] theorem commits_stepSize (m : RepoMetrics) (env : GitEnv) :
    (stepSize m env).commits_count = m.commits_count := rfl

@[simp] theorem total_stepSize (m : RepoMetrics) (env : GitEnv) :
    (stepSize m env).total_lines = m.total_lines := rfl

@[simp] theorem total_stepLoc (m : RepoMetrics) (env : GitEnv) :
    (stepLoc m env).total_lines = some (locTotal env.loc) := rfl

/-- Every step leaves repo_url and repo_slug untouched. -/
theorem step_preserves_ids (f : Step) (hf : f ∈ localSteps) (m : RepoMetrics) (env : GitEnv) :
    (f m env).repo_url = m.repo_url ∧ (f m env).repo_slug = m.repo_slug := by
  simp only [localSteps, List.mem_cons, List.not_mem_nil, or_false] at hf
  rcases hf with rfl | rfl | rfl | rfl | rfl | rfl | rfl | rfl
  · exact ⟨rfl, rfl⟩
  · exact ⟨rfl, rfl⟩
  · exact ⟨rfl, rfl⟩
  · refine ⟨?_, ?_⟩ <;> (unfold stepDates; split <;> first | rfl | (split <;> rfl))
  · refine ⟨?_, ?_⟩ <;> (unfold stepContribs; split <;> rfl)
  · refine ⟨?_, ?_⟩ <;>
      (unfold stepNumstat; split <;> first | rfl | (split <;> first | rfl | (split <;> rfl)))
  · exact ⟨rfl, rfl⟩
  · exact ⟨rfl, rfl⟩

/-- Folding steps that each preserve a projection preserves it. -/
theorem runSteps_proj {α : Type} (g : RepoMetrics → α) (fs : List Step) (env : GitEnv)
    (h : ∀ f ∈ fs, ∀ m, g (f m env) = g m) :
    ∀ m, g (runSteps fs m env) = g m := by
  induction fs with
  | nil => intro m; rfl
  | cons f fs ih =>
    intro m
    have h1 : runSteps (f :: fs) m env = runSteps fs (f m env) env := rfl
    rw [h1, ih (fun f2 hf2 m2 => h f2 (List.mem_cons_of_mem _ hf2) m2), h f (List.mem_cons_self _ _)]

/-- Any prefix of the query sequence preserves repo_url. -/
theorem runSteps_repo_url (fs : List Step) (hsub : ∀ f ∈ fs, f ∈ localSteps)
    (m : RepoMetrics) (env : GitEnv) :
    (runSteps fs m env).repo_url = m.repo_url :=
  runSteps_proj RepoMetrics.repo_url fs env
    (fun f hf m2 => (step_preserves_ids f (hsub f hf) m2 env).1) m

/-- Any prefix of the query sequence preserves repo_slug. -/
theorem runSteps_repo_slug (fs : List Step) (hsub : ∀ f ∈ fs, f ∈ localSteps)
    (m : RepoMetrics) (env : GitEnv) :
    (runSteps fs m env).repo_slug = m.repo_slug :=
  runSteps_proj RepoMetrics.repo_slug fs env
    (fun f hf m2 => (step_preserves_ids f (hsub f hf) m2 env).2) m

/-- analyze_repo_local always reports the input identifier unchanged. -/
theorem analyze_repo_local_repo_url (repo_url : String) (env : GitEnv) :
    (analyze_repo_local repo_url env).repo_url = repo_url := by
  unfold analyze_repo_local
  split
  · rfl
  · split
    · rfl
    · split
      · exact runSteps_repo_url _ (fun f hf => List.take_subset _ _ hf) _ env
      · exact runSteps_repo_url _ (fun f hf => hf) _ env

/-- stepNumstat leaves the average absent when the record carries no
positive commit count (the Python guard is commits_count and
commits_count > 0). -/
theorem avg_stepNumstat_none (m : RepoMetrics) (env : GitEnv)
    (hA : m.avg_lines_changed_per_commit = none)
    (hC : m.commits_count = none ∨ m.commits_count = some 0) :
    (stepNumstat m env).avg_lines_changed_per_commit = none := by
  unfold stepNumstat
  split
  · rcases hC with h | h <;> simp [h, hA]
  · exact hA

/-- After any prefix of the query sequence started on a fresh record, a
missing or zero commit count in the result forces an absent average. -/
theorem runSteps_take_avg (env : GitEnv) (m0 : RepoMetrics)
    (hA : m0.avg_lines_changed_per_commit = none) (k : Nat)
    (hC : (runSteps (localSteps.take k) m0 env).commits_count = none ∨
          (runSteps (localSteps.take k) m0 env).commits_count = some 0) :
    (runSteps (localSteps.take k) m0 env).avg_lines_changed_per_commit = none := by
  rcases k with _ | (_ | (_ | (_ | (_ | (_ | (_ | (_ | k)))))))
  · simpa [runSteps, localSteps] using hA
  · simp [localSteps, runSteps, List.foldl, hA]
  · simp [localSteps, runSteps, List.foldl, hA]
  · simp [localSteps, runSteps, List.foldl, hA]
  · simp [localSteps, runSteps, List.foldl, hA]
  · simp [localSteps, runSteps, List.foldl, hA]
  · simp only [localSteps, List.take, runSteps, List.foldl] at hC ⊢
    simp only [commits_stepNumstat, commits_stepContribs, commits_stepDates,
      commits_stepCommits] at hC
    refine avg_stepNumstat_none _ env (by simp [hA]) ?_
    simpa using hC
  · simp only [localSteps, List.take, runSteps, List.foldl] at hC ⊢
    simp only [avg_stepLoc]
    simp only [commits_stepLoc, commits_stepNumstat, commits_stepContribs, commits_stepDates,
      commits_stepCommits] at hC
    refine avg_stepNumstat_none _ env (by simp [hA]) ?_
    simpa using hC
  · rw [List.take_of_length_le (by simp [localSteps])] at hC ⊢
    simp only [localSteps, runSteps, List.foldl] at hC ⊢
    simp only [avg_stepSize, avg_stepLoc]
    simp only [commits_stepSize, commits_stepLoc, commits_stepNumstat, commits_stepContribs,
      commits_stepDates, commits_stepCommits] at hC
    refine avg_stepNumstat_none _ env (by simp [hA]) ?_
    simpa using hC

/-! ## Claim theorems -/

/-- C2: identifier normalization maps https://github.com/foo/bar to the slug
foo/bar; the same URL with a trailing .git or a trailing slash normalizes to
the same slug; and normalization fails on https://example.com/foo/bar, whose
host is not the fixed accepted host. -/
theorem c2_parse_slug_normalization :
    parse_slug "https://github.com/foo/bar" = some "foo/bar" ∧
    parse_slug "https://github.com/foo/bar.git" = some "foo/bar" ∧
    parse_slug "https://github.com/foo/bar/" = some "foo/bar" ∧
    parse_slug "https://example.com/foo/bar" = none := by
  exact ⟨by decide, by decide, by decide, by decide⟩

/-- C3: in both analysis variants, whenever the produced record's commit
count is absent or zero the average-lines-changed field is absent; the
average is only ever computed under a positive commit count, so no division
by zero is possible. -/
theorem c3_avg_absent_without_commits (repo_url : String) (env : GitEnv) (clone : RunRes)
    (keep_workdir : Bool) :
    (((analyze_repo_local repo_url env).commits_count = none ∨
      (analyze_repo_local repo_url env).commits_count = some 0) →
      (analyze_repo_local repo_url env).avg_lines_changed_per_commit = none) ∧
    (∀ m : RepoMetrics,
      (analyze_repo repo_url env clone keep_workdir).outcome = Except.ok m →
      (m.commits_count = none ∨ m.commits_count = some 0) →
      m.avg_lines_changed_per_commit = none) := by
  constructor
  · unfold analyze_repo_local
    split
    · intro _; rfl
    · split
      · intro _; rfl
      · split
        · intro h
          exact runSteps_take_avg env _ rfl _ h
        · intro h
          exact runSteps_take_avg env _ rfl 8 h
  · intro m hm hc
    unfold analyze_repo at hm
    split at hm
    · cases hm
      rfl
    · split at hm
      · split at hm
        · simp at hm
        · split at hm
          · cases hm
            rfl
          · simp at hm
      · split at hm
        · cases hm
          rfl
        · cases hm
          exact runSteps_take_avg env _ rfl 8 hc

/-- Witness for C3 at a concrete environment whose commit-count query fails. -/
def envNoCommits : GitEnv := { envW with commitsRes := runFail }

theorem c3_avg_absent_without_commits_witness :
    ((analyze_repo_local "https://github.com/foo/bar" envNoCommits).commits_count = none ∨
     (analyze_repo_local "https://github.com/foo/bar" envNoCommits).commits_count = some 0) ∧
    (analyze_repo_local "https://github.com/foo/bar" envNoCommits).avg_lines_changed_per_commit
      = none := by
  refine ⟨Or.inl (by decide), ?_⟩
  exact (c3_avg_absent_without_commits "https://github.com/foo/bar" envNoCommits runFail
    false).1 (Or.inl (by decide))

/-- The record returned on normalization failure: identifier and status set,
the slug empty, and every other field at its absent dataclass default. -/
def invalidUrlRecord (repo_url : String) : RepoMetrics :=
  { repo_url := repo_url, repo_slug := "", clone_status := "ERROR: invalid GitHub URL" }

/-- C4: when slug normalization fails, both analysis variants return
immediately with status "ERROR: invalid GitHub URL" (the identifier kind in
the message being the fixed accepted host), the slug empty, and every other
field absent. -/
theorem c4_invalid_url_minimal_record (repo_url : String) (env : GitEnv) (clone : RunRes)
    (keep_workdir : Bool) (h : parse_slug repo_url = none) :
    analyze_repo_local repo_url env = invalidUrlRecord repo_url ∧
    (analyze_repo repo_url env clone keep_workdir).outcome =
      Except.ok (invalidUrlRecord repo_url) := by
  constructor
  · unfold analyze_repo_local
    rw [h]
    rfl
  · unfold analyze_repo
    rw [h]
    rfl

theorem c4_invalid_url_minimal_record_witness :
    parse_slug "https://example.com/foo/bar" = none ∧
    analyze_repo_local "https://example.com/foo/bar" envW =
      invalidUrlRecord "https://example.com/foo/bar" ∧
    (analyze_repo "https://example.com/foo/bar" envW runFail false).outcome =
      Except.ok (invalidUrlRecord "https://example.com/foo/bar") := by
  refine ⟨by decide, ?_, ?_⟩
  · exact (c4_invalid_url_minimal_record "https://example.com/foo/bar" envW runFail false
      (by decide)).1
  · exact (c4_invalid_url_minimal_record "https://example.com/foo/bar" envW runFail false
      (by decide)).2

/-- String append acts as list append on the character data. -/
theorem dataAppend (a b : String) : (a ++ b).data = a.data ++ b.data := by
  cases a
  cases b
  rfl

/-- A status built from the "ERROR: " prefix differs from any string that
does not start with E. -/
theorem err_prefix_ne (t u : String) (h0 : u.data.headD ' ' ≠ 'E') : "ERROR: " ++ t ≠ u := by
  intro h
  apply h0
  have h2 := congrArg String.data h
  rw [dataAppend] at h2
  have e : "ERROR: ".data = 'E' :: 'R' :: 'R' :: 'O' :: 'R' :: ':' :: ' ' :: [] := rfl
  rw [e] at h2
  rw [← h2]
  rfl

/-- An "ERROR: "-prefixed status is never "OK". -/
theorem errStatus_ne_ok (t : String) : "ERROR: " ++ t ≠ "OK" :=
  err_prefix_ne t "OK" (by decide)

/-- An "ERROR: "-prefixed status is never the "PENDING" placeholder. -/
theorem errStatus_ne_pending (t : String) : "ERROR: " ++ t ≠ "PENDING" :=
  err_prefix_ne t "PENDING" (by decide)

/-- The record returned when the remote clone exits non-zero: identifier and
slug, a status carrying the truncated clone error, and every analytical
field at its absent default. -/
def cloneFailRecord (repo_url slug : String) (clone : RunRes) : RepoMetrics :=
  { repo_url := repo_url, repo_slug := slug,
    clone_status := "ERROR: " ++ strTake (cloneErrMsg clone) 240 }

/-- A failing clone run with a transport error message. -/
def cloneFailRes : RunRes := ⟨128, "", "fatal: repository not found"⟩

/-- C5 counterexample: the claim says the temporary directory is removed on
every exit path, but an analysis invoked with keep_workdir set creates the
temporary directory and never calls rmtree on it, on the clone-failure path
as on every other. -/
theorem c5_counterexample :
    (analyze_repo "https://github.com/foo/bar" envW cloneFailRes true).tmpdirCreated = true ∧
    (analyze_repo "https://github.com/foo/bar" envW cloneFailRes true).rmtreeCalled = false := by
  exact ⟨by decide, by decide⟩

/-- C5 (amended): when the clone exits non-zero (and no exception preempts
it), the returned record carries a non-OK status holding at most 240
characters of the clone tool's stripped error text and no analytical field;
and whenever keep_workdir is false — the default — any created temporary
directory is removed on every exit path. -/
theorem c5_clone_failure_record (repo_url slug : String) (env : GitEnv) (clone : RunRes)
    (keep_workdir : Bool) (hs : parse_slug repo_url = some slug) (hrc : clone.rc ≠ 0)
    (hexc : env.exc = none) :
    (analyze_repo repo_url env clone keep_workdir).outcome =
      Except.ok (cloneFailRecord repo_url slug clone) ∧
    (cloneFailRecord repo_url slug clone).clone_status =
      "ERROR: " ++ strTake (cloneErrMsg clone) 240 ∧
    (cloneFailRecord repo_url slug clone).clone_status ≠ "OK" ∧
    (strTake (cloneErrMsg clone) 240).length ≤ 240 ∧
    (analyze_repo repo_url env clone keep_workdir).tmpdirCreated = true ∧
    (keep_workdir = false →
      (analyze_repo repo_url env clone keep_workdir).rmtreeCalled = true) ∧
    (∀ (env2 : GitEnv) (clone2 : RunRes),
      (analyze_repo repo_url env2 clone2 false).tmpdirCreated = true →
      (analyze_repo repo_url env2 clone2 false).rmtreeCalled = true) := by
  have hrepo : analyze_repo repo_url env clone keep_workdir =
      ⟨Except.ok (cloneFailRecord repo_url slug clone), true, !keep_workdir,
        cloneCmd repo_url (env.tmpdirName ++ "/" ++ slugDirName slug)⟩ := by
    simp only [analyze_repo, hs, hexc]
    rw [if_pos hrc]
    rfl
  refine ⟨by rw [hrepo], rfl, errStatus_ne_ok _, ?_, by rw [hrepo], ?_, ?_⟩
  · have e : (strTake (cloneErrMsg clone) 240).length = ((cloneErrMsg clone).data.take 240).length := rfl
    rw [e, List.length_take]
    omega
  · intro hk
    rw [hrepo, hk]
    rfl
  · intro env2 clone2 _
    simp only [analyze_repo, hs]
    split <;> (try split) <;> (try split) <;> rfl

theorem c5_clone_failure_record_witness :
    (analyze_repo "https://github.com/foo/bar" envW cloneFailRes false).outcome =
      Except.ok (cloneFailRecord "https://github.com/foo/bar" "foo/bar" cloneFailRes) ∧
    (analyze_repo "https://github.com/foo/bar" envW cloneFailRes false).tmpdirCreated = true ∧
    (analyze_repo "https://github.com/foo/bar" envW cloneFailRes false).rmtreeCalled = true := by
  have h := c5_clone_failure_record "https://github.com/foo/bar" "foo/bar" envW cloneFailRes
    false (by decide) (by decide) (by decide)
  exact ⟨h.1, h.2.2.2.2.1, h.2.2.2.2.2.1 rfl⟩

/-- Git clone options requesting a shallow / history-limited fetch. -/
def shallowFlag (a : String) : Bool :=
  "--depth".data.isPrefixOf a.data || "--shallow".data.isPrefixOf a.data

/-- C6 counterexample: the clone command actually executed carries
protocol.version=2 and --no-tags but no shallow/history-limiting option at
all — the claimed shallow (history-limited) fetch does not happen. -/
theorem c6_counterexample :
    "--no-tags" ∈ (analyze_repo "https://github.com/foo/bar" envW cloneFailRes
      false).cloneCmdRun ∧
    "protocol.version=2" ∈ (analyze_repo "https://github.com/foo/bar" envW cloneFailRes
      false).cloneCmdRun ∧
    ((analyze_repo "https://github.com/foo/bar" envW cloneFailRes false).cloneCmdRun.all
      (fun a => !shallowFlag a)) = true := by
  exact ⟨by decide, by decide, by decide⟩

/-- C6 (amended): in remote mode the clone command is exactly
git -c protocol.version=2 clone --no-tags url dir, targeting the freshly
created temporary directory: it minimizes negotiation via protocol version 2
and fetches no tags, but passes no shallow/history-limiting flag, so the
clone is full-history (as the commit-count and first-commit queries
require). -/
theorem c6_clone_command (repo_url slug : String) (env : GitEnv) (clone : RunRes)
    (keep_workdir : Bool) (hs : parse_slug repo_url = some slug) :
    (analyze_repo repo_url env clone keep_workdir).cloneCmdRun =
      ["git", "-c", "protocol.version=2", "clone", "--no-tags", repo_url,
        env.tmpdirName ++ "/" ++ slugDirName slug] ∧
    (∀ a ∈ (analyze_repo repo_url env clone keep_workdir).cloneCmdRun,
      a ≠ repo_url → a ≠ env.tmpdirName ++ "/" ++ slugDirName slug → shallowFlag a = false) := by
  have hcmd : (analyze_repo repo_url env clone keep_workdir).cloneCmdRun =
      ["git", "-c", "protocol.version=2", "clone", "--no-tags", repo_url,
        env.tmpdirName ++ "/" ++ slugDirName slug] := by
    simp only [analyze_repo, hs]
    split <;> (try split) <;> (try split) <;> rfl
  refine ⟨hcmd, ?_⟩
  intro a ha hu hd
  rw [hcmd] at ha
  simp only [List.mem_cons, List.not_mem_nil, or_false] at ha
  rcases ha with rfl | rfl | rfl | rfl | rfl | rfl | rfl
  · decide
  · decide
  · decide
  · decide
  · decide
  · exact absurd rfl hu
  · exact absurd rfl hd

theorem c6_clone_command_witness :
    (analyze_repo "https://github.com/foo/bar" envW cloneFailRes false).cloneCmdRun =
      ["git", "-c", "protocol.version=2", "clone", "--no-tags",
        "https://github.com/foo/bar", "/tmp/repo_meta_w/foo__bar"] := by
  have h := (c6_clone_command "https://github.com/foo/bar" "foo/bar" envW cloneFailRes false
    (by decide)).1
  rw [h]
  decide

/-- The value the wc fallback counts for one file when the per-file count
succeeds: the parsed leading token of a successful wc run; none when the
run fails, prints nothing, or its token does not parse. -/
def wcSucceeded (env : LocEnv) (rel : String) : Option Int :=
  let r2 := env.wcRun rel
  if r2.rc = 0 ∧ pyStrip r2.out ≠ "" then pyInt (headTok r2.out) else none

/-- Is a file kept by the case-insensitively applied binary-extension
denylist? -/
def keptFile (rel : String) : Bool :=
  !(binExt.contains (asciiLowerStr (pySuffix rel)))

/-- The per-file loop body adds exactly the successful parsed count of a
kept file and nothing otherwise. -/
theorem wcFileStep_eq (env : LocEnv) (total : Int) (rel : String) :
    wcFileStep env total rel =
      if keptFile rel then total + (wcSucceeded env rel).getD 0 else total := by
  unfold wcFileStep keptFile wcSucceeded
  by_cases hm : asciiLowerStr (pySuffix rel) ∈ binExt
  · simp [hm]
  · simp only [List.elem_eq_mem, hm, decide_False, Bool.false_eq_true, if_false,
      Bool.not_false, if_true]
    split
    · cases hp : pyInt (headTok (env.wcRun rel).out) <;> simp [hp]
    · simp

/-- Folding the per-file loop equals summing the successful counts of the
kept files. -/
theorem wc_fold_filter (env : LocEnv) (files : List String) (a : Int) :
    files.foldl (wcFileStep env) a =
      (files.filter keptFile).foldl (fun t f => t + (wcSucceeded env f).getD 0) a := by
  induction files generalizing a with
  | nil => rfl
  | cons f fs ih =>
    rw [List.foldl_cons, wcFileStep_eq]
    by_cases hk : keptFile f = true
    · rw [List.filter_cons_of_pos hk, List.foldl_cons, if_pos hk]
      exact ih _
    · simp only [Bool.not_eq_true] at hk
      rw [List.filter_cons_of_neg (by simp [hk]), if_neg (by simp [hk])]
      exact ih _

/-- C7: in the wc fallback, photo.PNG is excluded by the case-insensitive
denylist while main.go is counted, and for every tracked-file listing the
total is exactly the sum of the per-file counts that succeeded — failures
are skipped silently, never reducing what succeeded. -/
theorem c7_wc_fallback (env : LocEnv) :
    keptFile "photo.PNG" = false ∧
    keptFile "main.go" = true ∧
    count_lines_with_wc env =
      (((pySplitOn '\x00' env.lsFiles.out).filter (fun f => f ≠ "")).filter keptFile).foldl
        (fun t f => t + (wcSucceeded env f).getD 0) 0 := by
  refine ⟨by decide, by decide, ?_⟩
  unfold count_lines_with_wc
  exact wc_fold_filter env _ 0

/-- Environment in which both line-count tiers fail: cloc is available but
exits non-zero, and the fallback's file enumeration and every per-file wc
run fail as well. -/
def envBothTiersFail : GitEnv :=
  { envW with loc := { clocAvail := true, clocRun := runFail, clocSum := none,
                       lsFiles := runFail, wcRun := fun _ => runFail } }

/-- C8 counterexample: when both line-count tiers fail, the record's
total-lines field is 0, not absent — the fallback cannot signal failure. -/
theorem c8_counterexample :
    has_cloc envBothTiersFail.loc = true ∧
    count_lines_with_cloc envBothTiersFail.loc = none ∧
    (analyze_repo_local "https://github.com/foo/bar" envBothTiersFail).total_lines = some 0 := by
  exact ⟨by decide, by decide, by decide⟩

/-- C8 (amended): cloc errors are tolerated via the two-tier fallback, but
the second tier cannot fail — it returns a plain integer, 0 when enumeration
or every per-file count fails — so once line counting runs the total-lines
field holds an integer and is never absent; when the first tier yields
nothing the value is the wc sum, and that sum is non-negative whenever every
successful per-file count is non-negative. -/
theorem c8_total_lines_integer (repo_url slug : String) (env : GitEnv)
    (hs : parse_slug repo_url = some slug) (hd : env.dirExists = true)
    (hexc : env.exc = none) :
    (analyze_repo_local repo_url env).total_lines = some (locTotal env.loc) ∧
    (count_lines_with_cloc env.loc = none ∨ has_cloc env.loc = false →
      locTotal env.loc = count_lines_with_wc env.loc) ∧
    ((∀ f v, wcSucceeded env.loc f = some v → 0 ≤ v) → 0 ≤ count_lines_with_wc env.loc) := by
  refine ⟨?_, ?_, ?_⟩
  · simp only [analyze_repo_local, hs, hd, hexc]
    rfl
  · intro h
    unfold locTotal
    by_cases ha : has_cloc env.loc = true
    · rcases h with h | h
      · rw [if_pos ha, h]
      · exact absurd ha (by simp [h])
    · simp only [Bool.not_eq_true] at ha
      rw [if_neg (by simp [ha])]
  · intro h
    unfold count_lines_with_wc
    rw [wc_fold_filter]
    have gen : ∀ (l : List String) (a : Int), 0 ≤ a →
        0 ≤ l.foldl (fun t f => t + (wcSucceeded env.loc f).getD 0) a := by
      intro l
      induction l with
      | nil => intro a ha; simpa using ha
      | cons f fs ih =>
        intro a ha
        rw [List.foldl_cons]
        apply ih
        rcases hf : wcSucceeded env.loc f with _ | v
        · simpa [hf] using ha
        · have hv := h f v hf
          simp only [hf, Option.getD_some]
          omega
    exact gen _ 0 le_rfl

theorem c8_total_lines_integer_witness :
    (analyze_repo_local "https://github.com/foo/bar" envW).total_lines =
      some (locTotal envW.loc) ∧
    locTotal envW.loc = count_lines_with_wc envW.loc ∧
    0 ≤ count_lines_with_wc envW.loc := by
  have h := c8_total_lines_integer "https://github.com/foo/bar" "foo/bar" envW (by decide)
    (by decide) (by decide)
  refine ⟨h.1, h.2.1 (Or.inr (by decide)), h.2.2 ?_⟩
  intro f v hv
  simp [wcSucceeded, envW, locEnvFail, runFail] at hv

/-! ## Orchestrator lemmas and the batch claims -/

/-- enumFrom tags indices without changing the underlying elements. -/
theorem enumFrom_map_snd_local {α : Type} (n : Nat) (l : List α) :
    (List.enumFrom n l).map Prod.snd = l := by
  induction l generalizing n with
  | nil => rfl
  | cons a l ih => simp [List.enumFrom, ih]

/-- The enumerated task list is as long as the input list. -/
theorem enum_length_local {α : Type} (l : List α) : l.enum.length = l.length := by
  simp [List.enum]

/-- The repo_url cell of every produced row is exactly the dispatched
identifier, for successful and for faulted invocations alike. -/
theorem taskRow_repo_url (url : String) (t : TaskOut) :
    (fillRow (taskRow url t)).repo_url = Cell.s url := by
  cases t with
  | done env =>
    have h : (fillRow (taskRow url (TaskOut.done env))).repo_url =
        Cell.s ((analyze_repo_local url env).repo_url) := rfl
    rw [h, analyze_repo_local_repo_url]
  | fault msg => rfl

/-- C1: for every input identifier list, every assignment of task outcomes,
and every completion order of the dispatched tasks, the batch has exactly
one row per input identifier, and the multiset of repository-identifier
cells equals the input list — each input identifier appears exactly once,
as a full metrics record or as a minimal error record. -/
theorem c1_batch_bijection (urls : List String) (outs : Nat → TaskOut)
    (order : List (Nat × String)) (hperm : order.Perm urls.enum) :
    (analyze_from_csv urls outs order).length = urls.length ∧
    ((analyze_from_csv urls outs order).map Row.repo_url).Perm (urls.map Cell.s) := by
  constructor
  · unfold analyze_from_csv
    rw [List.length_map, hperm.length_eq, enum_length_local]
  · unfold analyze_from_csv
    rw [List.map_map]
    have h1 : (Row.repo_url ∘ fun p : Nat × String => fillRow (taskRow p.2 (outs p.1))) =
        fun p : Nat × String => Cell.s p.2 := by
      funext p
      exact taskRow_repo_url p.2 (outs p.1)
    rw [h1]
    have h2 := hperm.map (fun p : Nat × String => Cell.s p.2)
    have h3 : urls.enum.map (fun p : Nat × String => Cell.s p.2) = urls.map Cell.s := by
      have h4 : urls.enum.map Prod.snd = urls := enumFrom_map_snd_local 0 urls
      calc urls.enum.map (fun p : Nat × String => Cell.s p.2)
          = (urls.enum.map Prod.snd).map Cell.s := by rw [List.map_map]; rfl
        _ = urls.map Cell.s := by rw [h4]
    rw [← h3]
    exact h2

/-- Concrete inputs for the batch witnesses. -/
def urlsW : List String := ["https://github.com/foo/bar", "https://example.com/x"]

/-- One successful and one faulted task. -/
def outsW : Nat → TaskOut :=
  fun i => if i = 0 then TaskOut.done envW else TaskOut.fault "boom"

theorem c1_batch_bijection_witness :
    (analyze_from_csv urlsW outsW urlsW.enum).length = urlsW.length ∧
    ((analyze_from_csv urlsW outsW urlsW.enum).map Row.repo_url).Perm (urlsW.map Cell.s) :=
  c1_batch_bijection urlsW outsW urlsW.enum (List.Perm.refl _)

/-- The fixed invalid-URL status, as an "ERROR: "-prefixed string. -/
theorem eInvalid : "ERROR: invalid GitHub URL" = "ERROR: " ++ "invalid GitHub URL" := by
  decide

/-- The fixed not-found status, as an "ERROR: "-prefixed string. -/
theorem eNotFound : "ERROR: not found locally" = "ERROR: " ++ "not found locally" := by
  decide

/-- Every record analyze_repo_local returns carries status "OK" or an
"ERROR: "-prefixed string — never anything else. -/
theorem analyze_repo_local_status (repo_url : String) (env : GitEnv) :
    (analyze_repo_local repo_url env).clone_status = "OK" ∨
    ∃ t, (analyze_repo_local repo_url env).clone_status = "ERROR: " ++ t := by
  unfold analyze_repo_local
  split
  · exact Or.inr ⟨"invalid GitHub URL", eInvalid⟩
  · split
    · exact Or.inr ⟨"not found locally", eNotFound⟩
    · split
      · exact Or.inr ⟨_, rfl⟩
      · exact Or.inl rfl

/-- Every record analyze_repo returns (when it returns rather than
propagating an exception) carries status "OK" or an "ERROR: "-prefixed
string. -/
theorem analyze_repo_status (repo_url : String) (env : GitEnv) (clone : RunRes)
    (keep_workdir : Bool) (m : RepoMetrics)
    (hm : (analyze_repo repo_url env clone keep_workdir).outcome = Except.ok m) :
    m.clone_status = "OK" ∨ ∃ t, m.clone_status = "ERROR: " ++ t := by
  unfold analyze_repo at hm
  split at hm
  · cases hm
    exact Or.inr ⟨"invalid GitHub URL", eInvalid⟩
  · split at hm
    · split at hm
      · simp at hm
      · split at hm
        · cases hm
          exact Or.inr ⟨_, rfl⟩
        · simp at hm
    · split at hm
      · cases hm
        exact Or.inr ⟨_, rfl⟩
      · cases hm
        exact Or.inl rfl

/-- A status that is "OK" or "ERROR: "-prefixed is not the placeholder. -/
theorem status_ne_pending (s : String) (h : s = "OK" ∨ ∃ t, s = "ERROR: " ++ t) :
    s ≠ "PENDING" := by
  rcases h with h | ⟨t, h⟩
  · rw [h]
    decide
  · rw [h]
    exact errStatus_ne_pending t

/-- C10: the status of every record produced by either analysis variant, and
of every row of the orchestrator's output, is exactly "OK" or a string
beginning with "ERROR: "; the dataclass's initial "PENDING" placeholder is
never observable, every exit path having overwritten it. -/
theorem c10_status_ok_or_error :
    (∀ (repo_url : String) (env : GitEnv),
      ((analyze_repo_local repo_url env).clone_status = "OK" ∨
        ∃ t, (analyze_repo_local repo_url env).clone_status = "ERROR: " ++ t) ∧
      (analyze_repo_local repo_url env).clone_status ≠ "PENDING") ∧
    (∀ (repo_url : String) (env : GitEnv) (clone : RunRes) (keep_workdir : Bool)
        (m : RepoMetrics),
      (analyze_repo repo_url env clone keep_workdir).outcome = Except.ok m →
      (m.clone_status = "OK" ∨ ∃ t, m.clone_status = "ERROR: " ++ t) ∧
      m.clone_status ≠ "PENDING") ∧
    (∀ (urls : List String) (outs : Nat → TaskOut) (order : List (Nat × String)) (row : Row),
      row ∈ analyze_from_csv urls outs order →
      ∃ v, row.clone_status = Cell.s v ∧ (v = "OK" ∨ ∃ t, v = "ERROR: " ++ t) ∧
        v ≠ "PENDING") := by
  refine ⟨?_, ?_, ?_⟩
  · intro repo_url env
    have h := analyze_repo_local_status repo_url env
    exact ⟨h, status_ne_pending _ h⟩
  · intro repo_url env clone keep_workdir m hm
    have h := analyze_repo_status repo_url env clone keep_workdir m hm
    exact ⟨h, status_ne_pending _ h⟩
  · intro urls outs order row hrow
    unfold analyze_from_csv at hrow
    obtain ⟨p, hp, rfl⟩ := List.mem_map.mp hrow
    rcases ht : outs p.1 with genv | msg
    · have hcell : (fillRow (taskRow p.2 (TaskOut.done genv))).clone_status =
          Cell.s ((analyze_repo_local p.2 genv).clone_status) := rfl
      have h := analyze_repo_local_status p.2 genv
      exact ⟨_, hcell, h, status_ne_pending _ h⟩
    · have hcell : (fillRow (taskRow p.2 (TaskOut.fault msg))).clone_status =
          Cell.s ("ERROR: " ++ msg) := rfl
      refine ⟨_, hcell, Or.inr ⟨msg, rfl⟩, status_ne_pending _ (Or.inr ⟨msg, rfl⟩)⟩

/-- The minimal dict appended at the except boundary of the orchestrator:
only the identifier and the error status are present. -/
def faultDict (url msg : String) : RowDict :=
  { repo_url := some (Cell.s url), clone_status := some (Cell.s ("ERROR: " ++ msg)) }

theorem c10_status_ok_or_error_witness :
    (((analyze_repo_local "https://github.com/foo/bar" envW).clone_status = "OK" ∨
      ∃ t, (analyze_repo_local "https://github.com/foo/bar" envW).clone_status =
        "ERROR: " ++ t) ∧
      (analyze_repo_local "https://github.com/foo/bar" envW).clone_status ≠ "PENDING") ∧
    (cloneFailRecord "https://github.com/foo/bar" "foo/bar" cloneFailRes).clone_status
      ≠ "PENDING" ∧
    (∃ v, (fillRow (taskRow "https://github.com/foo/bar" (TaskOut.fault "boom"))).clone_status
        = Cell.s v ∧ (v = "OK" ∨ ∃ t, v = "ERROR: " ++ t) ∧ v ≠ "PENDING") := by
  refine ⟨c10_status_ok_or_error.1 "https://github.com/foo/bar" envW, ?_, ?_⟩
  · exact (c10_status_ok_or_error.2.1 "https://github.com/foo/bar" envW cloneFailRes false
      (cloneFailRecord "https://github.com/foo/bar" "foo/bar" cloneFailRes) rfl).2
  · refine c10_status_ok_or_error.2.2 ["https://github.com/foo/bar"]
      (fun _ => TaskOut.fault "boom") (["https://github.com/foo/bar"].enum) _ ?_
    decide

/-- C9: an unhandled fault in one dispatched invocation is converted at the
dispatch boundary into a single minimal row keyed to the original
identifier — status "ERROR: " plus the fault text, the identifier cell
preserved, and every other declared column present as null — while the
batch still contains exactly one row per dispatched task. -/
theorem c9_fault_isolation (urls : List String) (outs : Nat → TaskOut)
    (order : List (Nat × String)) (i : Nat) (u msg : String)
    (hperm : order.Perm urls.enum) (hmem : (i, u) ∈ order)
    (hout : outs i = TaskOut.fault msg) :
    (analyze_from_csv urls outs order).length = urls.length ∧
    fillRow (faultDict u msg) ∈ analyze_from_csv urls outs order ∧
    (fillRow (faultDict u msg)).repo_url = Cell.s u ∧
    (fillRow (faultDict u msg)).clone_status = Cell.s ("ERROR: " ++ msg) ∧
    (fillRow (faultDict u msg)).repo_slug = Cell.null ∧
    (fillRow (faultDict u msg)).contributors_count = Cell.null ∧
    (fillRow (faultDict u msg)).commits_count = Cell.null ∧
    (fillRow (faultDict u msg)).first_commit_iso = Cell.null ∧
    (fillRow (faultDict u msg)).last_commit_iso = Cell.null ∧
    (fillRow (faultDict u msg)).total_lines = Cell.null ∧
    (fillRow (faultDict u msg)).avg_lines_changed_per_commit = Cell.null ∧
    (fillRow (faultDict u msg)).default_branch = Cell.null ∧
    (fillRow (faultDict u msg)).size_on_disk_mb = Cell.null := by
  refine ⟨?_, ?_, rfl, rfl, rfl, rfl, rfl, rfl, rfl, rfl, rfl, rfl, rfl⟩
  · unfold analyze_from_csv
    rw [List.length_map, hperm.length_eq, enum_length_local]
  · unfold analyze_from_csv
    refine List.mem_map.mpr ⟨(i, u), hmem, ?_⟩
    show fillRow (taskRow u (outs i)) = fillRow (faultDict u msg)
    rw [hout]
    rfl

/-- Concrete single-identifier batch whose only task faults. -/
def urlsW9 : List String := ["https://github.com/foo/bar"]

/-- Every dispatch faults with text boom. -/
def outsW9 : Nat → TaskOut := fun _ => TaskOut.fault "boom"

theorem c9_fault_isolation_witness :
    (analyze_from_csv urlsW9 outsW9 urlsW9.enum).length = urlsW9.length ∧
    fillRow (faultDict "https://github.com/foo/bar" "boom") ∈
      analyze_from_csv urlsW9 outsW9 urlsW9.enum := by
  have h := c9_fault_isolation urlsW9 outsW9 urlsW9.enum 0 "https://github.com/foo/bar" "boom"
    (List.Perm.refl _) (by decide) rfl
  exact ⟨h.1, h.2.1⟩
